import Mathlib

/-!
Verification of the v1→v3 resource conversion pipeline in
`src/calicoctl/commands/convert.go` (functions `Convert`, `convertResource`
and `convert`).

The per-kind converter bodies (`conversion.Node{}`, `conversion.Profile{}`, …)
live in the external library `libcalico-go` and are outside this repository;
they are modelled as abstract values of a `Converter` structure whose two
fields mirror the two methods of the external `conversion.Converter`
interface.  Every theorem about the dispatcher and the driver is proved for
all such converter environments.

Go's `(value, error)` return convention is modelled as a pair of `Option`s;
`os.Exit`, `fmt.Printf`, `log.Infof` and the printer call are modelled as an
explicit trace of events together with an optional exit code.
-/

namespace CalicoConvert

/-- Type metadata of a v1 API resource: the declared kind string
(`unversioned.Resource.GetTypeMetadata().Kind` in the source). -/
structure TypeMetadata where
  kind : String
  deriving DecidableEq, Repr

/-- A v1 API resource: type metadata plus an opaque payload standing for the
version-specific spec/metadata fields, which the dispatcher and driver never
inspect. -/
structure V1Resource where
  meta : TypeMetadata
  payload : Nat
  deriving DecidableEq, Repr

/-- `unversioned.Resource.GetTypeMetadata()`. -/
def V1Resource.GetTypeMetadata (r : V1Resource) : TypeMetadata := r.meta

/-- The intermediate back-end key/value pair produced by stage 1 of a
converter (`model.KVPair` in the external library); opaque to the driver. -/
structure KVPair where
  key : Nat
  value : Nat
  deriving DecidableEq, Repr

/-- A v3 API resource (a `runtime.Object` in the source); opaque to the
driver, which only collects these into the results slice. -/
structure V3Resource where
  data : Nat
  deriving DecidableEq, Repr

/-- A Go `error` value arising in the conversion pipeline.
`unsupportedKind k` models the `fmt.Errorf("conversion for the resource type
'%s' is not supported", k)` value built in the default branch of
`convertResource`; `conversionError` models an error returned by one of the
two converter stages of the external library. -/
inductive ConvError where
  | unsupportedKind (kind : String)
  | conversionError (msg : String)
  deriving DecidableEq, Repr

/-- The external `conversion.Converter` interface: stage 1 turns a v1 API
resource into a back-end KVPair, stage 2 turns a back-end KVPair into a v3
API resource.  Each stage either succeeds or returns an error (the Go
methods return `(value, error)` with exactly one of the two non-nil, per the
protocol in the spec). -/
structure Converter where
  APIV1ToBackendV1 : V1Resource → Except ConvError KVPair
  BackendV1ToAPIV3 : KVPair → Except ConvError V3Resource

/-- The seven per-kind converter instances of the external library that
`convertResource` constructs (`conversion.Node{}`, `conversion.HostEndpoint{}`,
…).  Kept abstract: all theorems hold for every choice of implementations. -/
structure ConversionLib where
  Node : Converter
  HostEndpoint : Converter
  WorkloadEndpoint : Converter
  Profile : Converter
  Policy : Converter
  IPPool : Converter
  BGPPeer : Converter

/-- `convert` from convert.go lines 134-148: run `APIV1ToBackendV1`, and if
it succeeded run `BackendV1ToAPIV3` on the resulting KVPair; on failure of
either stage return `(nil, err)`.  Go's `(conversion.Resource, error)` pair
is modelled as `Option V3Resource × Option ConvError`. -/
def convert (convRes : Converter) (v1resource : V1Resource) :
    Option V3Resource × Option ConvError :=
  match convRes.APIV1ToBackendV1 v1resource with
  | Except.error err => (none, some err)
  | Except.ok kvp =>
      match convRes.BackendV1ToAPIV3 kvp with
      | Except.error err => (none, some err)
      | Except.ok res => (some res, none)

/-- `strings.ToLower`: per-character lowercasing of the string.  (Defined on
the character list, which is extensionally `String.toLower`; for the ASCII
kind strings matched below it agrees with Go's Unicode case mapping.) -/
def strToLower (s : String) : String := String.mk (s.data.map Char.toLower)

/-- `convertResource` from convert.go lines 112-132: a switch over
`strings.ToLower(v1resource.GetTypeMetadata().Kind)` selecting the per-kind
converter, with the default branch returning `(nil, unsupported-kind error)`
carrying the kind string in its original casing.  The Go `switch` on a
string is translated as the equivalent chain of equality tests. -/
def convertResource (lib : ConversionLib) (v1resource : V1Resource) :
    Option V3Resource × Option ConvError :=
  let kind := strToLower (v1resource.GetTypeMetadata).kind
  if kind = "node" then convert lib.Node v1resource
  else if kind = "hostendpoint" then convert lib.HostEndpoint v1resource
  else if kind = "workloadendpoint" then convert lib.WorkloadEndpoint v1resource
  else if kind = "profile" then convert lib.Profile v1resource
  else if kind = "policy" then convert lib.Policy v1resource
  else if kind = "ippool" then convert lib.IPPool v1resource
  else if kind = "bgppeer" then convert lib.BGPPeer v1resource
  else (none, some (ConvError.unsupportedKind (v1resource.GetTypeMetadata).kind))

/-- The result-accumulating loop of `Convert` (convert.go lines 94-102):
for each resource in order, call `convertResource`; on a non-nil error the
loop prints the error and exits (modelled as `Except.error`, the trace side
is in `ConvertLoaded`); otherwise the returned object is appended to
`results`.  `results` has type `[]runtime.Object` whose elements are nilable,
hence `List (Option V3Resource)`. -/
def convertAllAux (lib : ConversionLib) :
    List V1Resource → List (Option V3Resource) →
      Except ConvError (List (Option V3Resource))
  | [], results => Except.ok results
  | v1Resource :: rest, results =>
      match (convertResource lib v1Resource).2 with
      | some err => Except.error err
      | none => convertAllAux lib rest (results ++ [(convertResource lib v1Resource).1])

/-- The batch conversion: the loop of `Convert` started with the empty
`results` slice. -/
def convertAll (lib : ConversionLib) (resV1 : List V1Resource) :
    Except ConvError (List (Option V3Resource)) :=
  convertAllAux lib resV1 []

/-- A non-nil error returned by `rp.print` (the external resourcePrinter). -/
structure PrinterError where
  msg : String
  deriving DecidableEq, Repr

/-- The external printer capability `rp.print(nil, results)`: given the
results slice it either succeeds (`none`) or returns an error. -/
abbrev Printer := List (Option V3Resource) → Option PrinterError

/-- The externally observable actions of the tail of `Convert`. -/
inductive Event where
  /-- `fmt.Printf("Failed to execute command: %v\n", err)` on a conversion
  error inside the loop. -/
  | printfFailed (err : ConvError)
  /-- `log.Infof("results: %+v", results)` after a fully successful loop. -/
  | logInfoResults (results : List (Option V3Resource))
  /-- the single call `rp.print(nil, results)`. -/
  | printCall (results : List (Option V3Resource))
  /-- `fmt.Println(err)` when `rp.print` returned a non-nil error. -/
  | printlnPrinterErr (err : PrinterError)
  deriving DecidableEq, Repr

/-- Whether an event is a call to the printer. -/
def Event.isPrintCall : Event → Bool
  | Event.printCall _ => true
  | _ => false

/-- The outcome of running the tail of `Convert`: the ordered trace of
observable events, and `exitCode = some c` exactly when `os.Exit(c)` was
reached (`none` means the function fell off the end and returned; `Convert`
has no return value in the source). -/
structure ConvertRun where
  events : List Event
  exitCode : Option Nat
  deriving DecidableEq, Repr

/-- Observable behaviour of `Convert` (convert.go lines 94-109) after the
external loader has produced `resV1`: run the conversion loop; on the first
error print it and `os.Exit(1)`; otherwise log the results, call the printer
once with the full results slice, and `fmt.Println` any printer error before
returning normally. -/
def ConvertLoaded (lib : ConversionLib) (print : Printer)
    (resV1 : List V1Resource) : ConvertRun :=
  match convertAll lib resV1 with
  | Except.error err =>
      { events := [Event.printfFailed err], exitCode := some 1 }
  | Except.ok results =>
      match print results with
      | some perr =>
          { events := [Event.logInfoResults results, Event.printCall results,
                       Event.printlnPrinterErr perr],
            exitCode := none }
      | none =>
          { events := [Event.logInfoResults results, Event.printCall results],
            exitCode := none }

/-! ### Sample concrete instances, used only by witnesses and counterexamples -/

/-- A converter whose two stages always succeed, threading the payload. -/
def okConverter : Converter where
  APIV1ToBackendV1 := fun r => Except.ok { key := r.payload, value := r.payload }
  BackendV1ToAPIV3 := fun kvp => Except.ok { data := kvp.value }

/-- A converter whose first stage always fails. -/
def failBackendConverter : Converter where
  APIV1ToBackendV1 := fun _ => Except.error (ConvError.conversionError "bad field")
  BackendV1ToAPIV3 := fun _ => Except.ok { data := 0 }

/-- A sample environment assigning the always-succeeding converter to all
seven kinds. -/
def sampleLib : ConversionLib where
  Node := okConverter
  HostEndpoint := okConverter
  WorkloadEndpoint := okConverter
  Profile := okConverter
  Policy := okConverter
  IPPool := okConverter
  BGPPeer := okConverter

/-- A printer that always succeeds. -/
def okPrinter : Printer := fun _ => none

/-- A printer that always fails. -/
def failPrinter : Printer := fun _ => some { msg := "write failed" }

/-! ### Helper lemmas (shared) -/

/-- When every resource in the remaining list converts without error, the
loop appends exactly the per-resource conversion results, in order, to the
accumulator. -/
theorem convertAllAux_all_ok (lib : ConversionLib) :
    ∀ (l : List V1Resource) (acc : List (Option V3Resource)),
      (∀ r ∈ l, (convertResource lib r).2 = none) →
      convertAllAux lib l acc =
        Except.ok (acc ++ l.map fun r => (convertResource lib r).1) := by
  intro l
  induction l with
  | nil => intro acc _; simp [convertAllAux]
  | cons x xs ih =>
      intro acc h
      have hx : (convertResource lib x).2 = none := h x (List.mem_cons_self x xs)
      have ih' := ih (acc ++ [(convertResource lib x).1])
        (fun r hr => h r (List.mem_cons_of_mem x hr))
      simp only [convertAllAux, hx, ih', List.map_cons, List.append_assoc,
        List.singleton_append]

/-- When some resource in the remaining list fails to convert, the loop
aborts with an error regardless of the accumulator. -/
theorem convertAllAux_err (lib : ConversionLib) :
    ∀ (l : List V1Resource),
      (∃ r ∈ l, ((convertResource lib r).2).isSome) →
      ∀ acc, ∃ err, convertAllAux lib l acc = Except.error err := by
  intro l
  induction l with
  | nil => intro h; exact absurd h (by simp)
  | cons x xs ih =>
      intro h acc
      cases hx : (convertResource lib x).2 with
      | some err => exact ⟨err, by simp [convertAllAux, hx]⟩
      | none =>
          have hxs : ∃ r ∈ xs, ((convertResource lib r).2).isSome := by
            obtain ⟨r, hr, hfail⟩ := h
            rcases List.mem_cons.mp hr with rfl | hr'
            · rw [hx] at hfail; exact absurd hfail (by simp)
            · exact ⟨r, hr', hfail⟩
          obtain ⟨err, herr⟩ := ih hxs (acc ++ [(convertResource lib x).1])
          exact ⟨err, by simp [convertAllAux, hx, herr]⟩

/-! ### Theorems -/

/-- C7: converting the empty input sequence succeeds with the empty output
sequence and no error. -/
theorem convertAll_empty_batch (lib : ConversionLib) :
    convertAll lib [] = Except.ok [] := rfl

/-- C1: if at least one resource in the input fails to convert (unsupported
kind or failing conversion stage), the batch reports an error: `convertAll`
returns `Except.error`, the run prints the error and exits with code 1, and
the printer is never called, so no output at all is emitted — regardless of
how many resources preceded the failing one. -/
theorem convertAll_fail_fast (lib : ConversionLib) (print : Printer)
    (resV1 : List V1Resource)
    (h : ∃ r ∈ resV1, ((convertResource lib r).2).isSome) :
    ∃ err, convertAll lib resV1 = Except.error err ∧
      ConvertLoaded lib print resV1 =
        { events := [Event.printfFailed err], exitCode := some 1 } ∧
      ∀ out, Event.printCall out ∉ (ConvertLoaded lib print resV1).events := by
  obtain ⟨err, herr⟩ := convertAllAux_err lib resV1 h []
  refine ⟨err, herr, ?_, ?_⟩
  · simp [ConvertLoaded, convertAll] at herr ⊢
    simp [herr]
  · intro out
    simp [ConvertLoaded, convertAll] at herr ⊢
    simp [herr]

/-- C1 witness: a batch of three resources whose middle one has the
unsupported kind "widget" satisfies the hypothesis, so the batch errors
with no printer call even though two resources were convertible. -/
theorem convertAll_fail_fast_witness :
    (∃ r ∈ [(⟨⟨"node"⟩, 1⟩ : V1Resource), ⟨⟨"widget"⟩, 2⟩, ⟨⟨"policy"⟩, 3⟩],
        ((convertResource sampleLib r).2).isSome) ∧
    ∃ err,
      convertAll sampleLib [(⟨⟨"node"⟩, 1⟩ : V1Resource), ⟨⟨"widget"⟩, 2⟩,
          ⟨⟨"policy"⟩, 3⟩] = Except.error err ∧
      ConvertLoaded sampleLib okPrinter [(⟨⟨"node"⟩, 1⟩ : V1Resource),
          ⟨⟨"widget"⟩, 2⟩, ⟨⟨"policy"⟩, 3⟩] =
        { events := [Event.printfFailed err], exitCode := some 1 } ∧
      ∀ out, Event.printCall out ∉
        (ConvertLoaded sampleLib okPrinter [(⟨⟨"node"⟩, 1⟩ : V1Resource),
          ⟨⟨"widget"⟩, 2⟩, ⟨⟨"policy"⟩, 3⟩]).events :=
  ⟨by decide, convertAll_fail_fast sampleLib okPrinter _ (by decide)⟩

/-- C2: when every resource in the input converts successfully, the batch
succeeds and the output is the element-wise conversion of the input: same
length, same order, `output[i] = conversion of input[i]`. -/
theorem convertAll_order_preservation (lib : ConversionLib)
    (resV1 : List V1Resource)
    (h : ∀ r ∈ resV1, (convertResource lib r).2 = none) :
    convertAll lib resV1 =
      Except.ok (resV1.map fun r => (convertResource lib r).1) ∧
    (resV1.map fun r => (convertResource lib r).1).length = resV1.length ∧
    ∀ i (hi : i < resV1.length),
      (resV1.map fun r => (convertResource lib r).1).get? i =
        some (convertResource lib (resV1.get ⟨i, hi⟩)).1 := by
  refine ⟨?_, by simp, ?_⟩
  · have := convertAllAux_all_ok lib resV1 [] h
    simpa [convertAll] using this
  · intro i hi
    rw [List.get?_eq_getElem?, List.getElem?_map,
      List.getElem?_eq_getElem (by simpa using hi)]
    rfl

/-- C2 witness: a two-element batch of supported kinds converts to the
element-wise results in order. -/
theorem convertAll_order_preservation_witness :
    (∀ r ∈ [(⟨⟨"node"⟩, 1⟩ : V1Resource), ⟨⟨"Profile"⟩, 2⟩],
        (convertResource sampleLib r).2 = none) ∧
    (convertAll sampleLib [(⟨⟨"node"⟩, 1⟩ : V1Resource), ⟨⟨"Profile"⟩, 2⟩] =
      Except.ok ([(⟨⟨"node"⟩, 1⟩ : V1Resource), ⟨⟨"Profile"⟩, 2⟩].map
        fun r => (convertResource sampleLib r).1) ∧
    ([(⟨⟨"node"⟩, 1⟩ : V1Resource), ⟨⟨"Profile"⟩, 2⟩].map
        fun r => (convertResource sampleLib r).1).length =
      [(⟨⟨"node"⟩, 1⟩ : V1Resource), ⟨⟨"Profile"⟩, 2⟩].length ∧
    ∀ i (hi : i < [(⟨⟨"node"⟩, 1⟩ : V1Resource), ⟨⟨"Profile"⟩, 2⟩].length),
      ([(⟨⟨"node"⟩, 1⟩ : V1Resource), ⟨⟨"Profile"⟩, 2⟩].map
          fun r => (convertResource sampleLib r).1).get? i =
        some (convertResource sampleLib
          ([(⟨⟨"node"⟩, 1⟩ : V1Resource), ⟨⟨"Profile"⟩, 2⟩].get ⟨i, hi⟩)).1) :=
  ⟨by decide, convertAll_order_preservation sampleLib _ (by decide)⟩

/-- C3: for each of the seven recognized kind strings, any letter-casing of
it (any kind string whose lowercasing is the recognized string) dispatches
successfully to the converter specific to that kind. -/
theorem dispatch_completeness (lib : ConversionLib) (r : V1Resource) :
    (strToLower (r.GetTypeMetadata).kind = "node" →
      convertResource lib r = convert lib.Node r) ∧
    (strToLower (r.GetTypeMetadata).kind = "hostendpoint" →
      convertResource lib r = convert lib.HostEndpoint r) ∧
    (strToLower (r.GetTypeMetadata).kind = "workloadendpoint" →
      convertResource lib r = convert lib.WorkloadEndpoint r) ∧
    (strToLower (r.GetTypeMetadata).kind = "profile" →
      convertResource lib r = convert lib.Profile r) ∧
    (strToLower (r.GetTypeMetadata).kind = "policy" →
      convertResource lib r = convert lib.Policy r) ∧
    (strToLower (r.GetTypeMetadata).kind = "ippool" →
      convertResource lib r = convert lib.IPPool r) ∧
    (strToLower (r.GetTypeMetadata).kind = "bgppeer" →
      convertResource lib r = convert lib.BGPPeer r) := by
  refine ⟨?_, ?_, ?_, ?_, ?_, ?_, ?_⟩ <;> intro h <;> simp [convertResource, h]

/-- C3 witness: three concrete casings dispatch to their kind's converter:
"NODE" to the node converter, "HOSTendPOINT" to the hostendpoint converter,
"BgpPeer" to the bgppeer converter. -/
theorem dispatch_completeness_witness :
    (strToLower "NODE" = "node" ∧
      convertResource sampleLib ⟨⟨"NODE"⟩, 5⟩ =
        convert sampleLib.Node ⟨⟨"NODE"⟩, 5⟩) ∧
    (strToLower "HOSTendPOINT" = "hostendpoint" ∧
      convertResource sampleLib ⟨⟨"HOSTendPOINT"⟩, 6⟩ =
        convert sampleLib.HostEndpoint ⟨⟨"HOSTendPOINT"⟩, 6⟩) ∧
    (strToLower "BgpPeer" = "bgppeer" ∧
      convertResource sampleLib ⟨⟨"BgpPeer"⟩, 7⟩ =
        convert sampleLib.BGPPeer ⟨⟨"BgpPeer"⟩, 7⟩) :=
  ⟨⟨by decide, (dispatch_completeness sampleLib ⟨⟨"NODE"⟩, 5⟩).1 (by decide)⟩,
   ⟨by decide,
    (dispatch_completeness sampleLib ⟨⟨"HOSTendPOINT"⟩, 6⟩).2.1 (by decide)⟩,
   ⟨by decide,
    (dispatch_completeness sampleLib ⟨⟨"BgpPeer"⟩, 7⟩).2.2.2.2.2.2 (by decide)⟩⟩

/-- C4: for every kind string whose lowercasing is outside the recognized
seven-element set, dispatch fails with the unsupported-kind error carrying
the offending kind string verbatim, in its original casing. -/
theorem dispatch_rejection (lib : ConversionLib) (r : V1Resource)
    (h : strToLower (r.GetTypeMetadata).kind ∉
      (["node", "hostendpoint", "workloadendpoint", "profile", "policy",
        "ippool", "bgppeer"] : List String)) :
    convertResource lib r =
      (none, some (ConvError.unsupportedKind (r.GetTypeMetadata).kind)) := by
  simp only [List.mem_cons, List.mem_singleton, not_or] at h
  obtain ⟨h1, h2, h3, h4, h5, h6, h7⟩ := h
  simp [convertResource, h1, h2, h3, h4, h5, h6, h7]

/-- C4 witness: the unrecognized kind "Widget" is rejected, and the error
carries "Widget" in its original casing (not the lowercased "widget" used
for matching). -/
theorem dispatch_rejection_witness :
    strToLower "Widget" ∉
      (["node", "hostendpoint", "workloadendpoint", "profile", "policy",
        "ippool", "bgppeer"] : List String) ∧
    convertResource sampleLib ⟨⟨"Widget"⟩, 0⟩ =
      (none, some (ConvError.unsupportedKind "Widget")) :=
  ⟨by decide, dispatch_rejection sampleLib ⟨⟨"Widget"⟩, 0⟩ (by decide)⟩

/-- C5: `convert` runs the two stages in fixed sequence: `APIV1ToBackendV1`
first, then `BackendV1ToAPIV3` on the KVPair it produced; a failure at
either stage is returned as the result, and when the first stage fails the
result does not depend on the second stage at all (replacing it by any
function `f` gives the same result), i.e. `toV3` is never invoked. -/
theorem convert_two_stage_sequencing (c : Converter) (r : V1Resource) :
    (∀ e, c.APIV1ToBackendV1 r = Except.error e →
      ∀ f, convert { c with BackendV1ToAPIV3 := f } r = (none, some e)) ∧
    (∀ kvp, c.APIV1ToBackendV1 r = Except.ok kvp →
      (∀ e, c.BackendV1ToAPIV3 kvp = Except.error e →
        convert c r = (none, some e)) ∧
      (∀ res, c.BackendV1ToAPIV3 kvp = Except.ok res →
        convert c r = (some res, none))) := by
  constructor
  · intro e he f
    simp [convert, he]
  · intro kvp hkvp
    constructor
    · intro e he
      simp [convert, hkvp, he]
    · intro res hres
      simp [convert, hkvp, hres]

/-- C5 witness: a converter whose first stage fails yields that error even
when the second stage is replaced by a different failing function — the
second stage's error never surfaces. -/
theorem convert_two_stage_sequencing_witness :
    failBackendConverter.APIV1ToBackendV1 ⟨⟨"node"⟩, 0⟩ =
      Except.error (ConvError.conversionError "bad field") ∧
    convert { failBackendConverter with
        BackendV1ToAPIV3 := fun _ =>
          Except.error (ConvError.conversionError "other") } ⟨⟨"node"⟩, 0⟩ =
      (none, some (ConvError.conversionError "bad field")) :=
  ⟨rfl, (convert_two_stage_sequencing failBackendConverter ⟨⟨"node"⟩, 0⟩).1
    (ConvError.conversionError "bad field") rfl
    (fun _ => Except.error (ConvError.conversionError "other"))⟩

/-- C8: conversion is deterministic and stateless: converting the same v1
resource twice (a batch consisting of the same resource twice) produces
identical results — the same v3 output in both positions, or the same error. -/
theorem convert_repeat_deterministic (lib : ConversionLib) (r : V1Resource) :
    (∀ v, convertResource lib r = (v, none) →
      convertAll lib [r, r] = Except.ok [v, v]) ∧
    (∀ v e, convertResource lib r = (v, some e) →
      convertAll lib [r, r] = Except.error e) := by
  constructor
  · intro v hv
    simp [convertAll, convertAllAux, hv]
  · intro v e hv
    simp [convertAll, convertAllAux, hv]

/-- C8 witness: converting the same node resource twice yields the same v3
resource twice. -/
theorem convert_repeat_deterministic_witness :
    convertResource sampleLib ⟨⟨"node"⟩, 7⟩ = (some ⟨7⟩, none) ∧
    convertAll sampleLib [⟨⟨"node"⟩, 7⟩, ⟨⟨"node"⟩, 7⟩] =
      Except.ok [some ⟨7⟩, some ⟨7⟩] :=
  ⟨by decide,
   (convert_repeat_deterministic sampleLib ⟨⟨"node"⟩, 7⟩).1 (some ⟨7⟩) (by decide)⟩

/-- Shared helper: `convert` never returns both a value and an error. -/
theorem convert_err_nil (c : Converter) (r : V1Resource) :
    ((convert c r).2).isSome → (convert c r).1 = none := by
  cases hc : c.APIV1ToBackendV1 r with
  | error e => simp [convert, hc]
  | ok kvp =>
      cases hb : c.BackendV1ToAPIV3 kvp with
      | error e => simp [convert, hc, hb]
      | ok res => simp [convert, hc, hb]

/-- C10: whenever `convertResource` or `convert` returns a non-nil error,
the accompanying resource value is nil — the functions never return both a
non-nil v3 resource and a non-nil error. -/
theorem conversion_error_yields_nil (lib : ConversionLib) (c : Converter)
    (r : V1Resource) :
    (((convertResource lib r).2).isSome → (convertResource lib r).1 = none) ∧
    (((convert c r).2).isSome → (convert c r).1 = none) := by
  constructor
  · simp only [convertResource]
    repeat' split
    all_goals first
      | exact convert_err_nil _ _
      | simp
  · exact convert_err_nil c r

/-- C10 witness: the unsupported kind "widget" gives a non-nil error and a
nil resource; the failing converter likewise. -/
theorem conversion_error_yields_nil_witness :
    ((convertResource sampleLib ⟨⟨"widget"⟩, 1⟩).2).isSome ∧
    (convertResource sampleLib ⟨⟨"widget"⟩, 1⟩).1 = none ∧
    ((convert failBackendConverter ⟨⟨"widget"⟩, 1⟩).2).isSome ∧
    (convert failBackendConverter ⟨⟨"widget"⟩, 1⟩).1 = none :=
  ⟨by decide,
   (conversion_error_yields_nil sampleLib failBackendConverter
      ⟨⟨"widget"⟩, 1⟩).1 (by decide),
   by decide,
   (conversion_error_yields_nil sampleLib failBackendConverter
      ⟨⟨"widget"⟩, 1⟩).2 (by decide)⟩

/-- C6 counterexample: the claim "the core never exits the process and never
logs" is false on the code: on an unsupported kind the driver reaches
`os.Exit(1)` (exit code `some 1`), and on a successful batch it emits a
`log.Infof` event. -/
theorem core_exit_log_counterexample :
    (ConvertLoaded sampleLib okPrinter [⟨⟨"widget"⟩, 0⟩]).exitCode = some 1 ∧
    Event.logInfoResults [some ⟨1⟩] ∈
      (ConvertLoaded sampleLib okPrinter [⟨⟨"node"⟩, 1⟩]).events := by
  decide

/-- C6 (amended): the per-resource conversion functions surface failures
only as returned error values, but the driver itself does exit and log: on
the first conversion error it prints the error and exits the process with
code 1 (no error value reaches any caller), and on success it logs the
results before printing. -/
theorem driver_exit_and_log_behaviour (lib : ConversionLib) (print : Printer)
    (resV1 : List V1Resource) :
    (∀ err, convertAll lib resV1 = Except.error err →
      ConvertLoaded lib print resV1 =
        { events := [Event.printfFailed err], exitCode := some 1 }) ∧
    (∀ results, convertAll lib resV1 = Except.ok results →
      (ConvertLoaded lib print resV1).events.head? =
        some (Event.logInfoResults results)) := by
  constructor
  · intro err herr
    simp [ConvertLoaded, herr]
  · intro results hres
    cases hp : print results with
    | some perr => simp [ConvertLoaded, hres, hp]
    | none => simp [ConvertLoaded, hres, hp]

/-- C6 (amended) witness: on the unsupported kind "widget" the driver's run
is exactly a printed error followed by exit code 1. -/
theorem driver_exit_and_log_behaviour_witness :
    convertAll sampleLib [⟨⟨"widget"⟩, 0⟩] =
      Except.error (ConvError.unsupportedKind "widget") ∧
    ConvertLoaded sampleLib okPrinter [⟨⟨"widget"⟩, 0⟩] =
      { events := [Event.printfFailed (ConvError.unsupportedKind "widget")],
        exitCode := some 1 } :=
  ⟨by rfl,
   (driver_exit_and_log_behaviour sampleLib okPrinter [⟨⟨"widget"⟩, 0⟩]).1
     (ConvError.unsupportedKind "widget") (by rfl)⟩

/-- C9 counterexample: a printer error is not propagated to the caller: with
a failing printer the run completes normally — `exitCode = none`, so neither
a returned error value (`Convert` has no return value in the source) nor a
failing exit status reaches the invoking environment; the error is merely
printed via `fmt.Println`. -/
theorem printer_error_not_propagated :
    failPrinter [some ⟨5⟩] = some ⟨"write failed"⟩ ∧
    ConvertLoaded sampleLib failPrinter [⟨⟨"node"⟩, 5⟩] =
      { events := [Event.logInfoResults [some ⟨5⟩],
                   Event.printCall [some ⟨5⟩],
                   Event.printlnPrinterErr ⟨"write failed"⟩],
        exitCode := none } := by
  decide

/-- C9 (amended): after a fully successful batch the driver hands the
complete output sequence to the printer exactly once; a printer error is
printed to standard output via `fmt.Println` and the run then completes
normally — the error is not returned to the caller and does not affect the
exit status. -/
theorem printer_called_once_error_printed (lib : ConversionLib)
    (print : Printer) (resV1 : List V1Resource)
    (results : List (Option V3Resource))
    (h : convertAll lib resV1 = Except.ok results) :
    ((ConvertLoaded lib print resV1).events.countP Event.isPrintCall = 1) ∧
    Event.printCall results ∈ (ConvertLoaded lib print resV1).events ∧
    (∀ perr, print results = some perr →
      ConvertLoaded lib print resV1 =
        { events := [Event.logInfoResults results, Event.printCall results,
                     Event.printlnPrinterErr perr],
          exitCode := none }) ∧
    (print results = none →
      ConvertLoaded lib print resV1 =
        { events := [Event.logInfoResults results, Event.printCall results],
          exitCode := none }) := by
  cases hp : print results with
  | some perr =>
      refine ⟨?_, ?_, ?_, ?_⟩ <;>
        simp [ConvertLoaded, h, hp, Event.isPrintCall, List.countP_cons,
          List.countP_nil]
  | none =>
      refine ⟨?_, ?_, ?_, ?_⟩ <;>
        simp [ConvertLoaded, h, hp, Event.isPrintCall, List.countP_cons,
          List.countP_nil]

/-- C9 (amended) witness: a successful one-element batch with a failing
printer still calls the printer exactly once. -/
theorem printer_called_once_error_printed_witness :
    convertAll sampleLib [⟨⟨"node"⟩, 5⟩] = Except.ok [some ⟨5⟩] ∧
    (ConvertLoaded sampleLib failPrinter [⟨⟨"node"⟩, 5⟩]).events.countP
      Event.isPrintCall = 1 :=
  ⟨by rfl,
   (printer_called_once_error_printed sampleLib failPrinter
      [⟨⟨"node"⟩, 5⟩] [some ⟨5⟩] (by rfl)).1⟩

end CalicoConvert
